import Mathlib

/-!
Shallow embedding of the health-calculator repository (`src/Kawaii.py`,
`src/HCA.py`; the three core functions are line-identical between the two
files up to message wording and the food catalog, so one embedding covers
both — the strings below are Kawaii.py's).

Modelling choices:
* Python floats are modelled as exact rationals (`ℚ`); `round(x, 2)` is
  modelled as round-half-to-even on the exact value (the reference rounding
  mode named by the spec).
* Python dicts (`bmi_history`, `daily_calories`) are modelled as
  insertion-ordered association lists with Python's update semantics
  (replace in place when the key is present, append otherwise).
* Python string operations (`str.split`, `str.replace`, `str.strip`,
  `int(...)`) are modelled directly on `List Char` with fuel-bounded
  structural recursion (the fuel is always sufficient: each step consumes
  at least one character).  `int(...)` is modelled without Python's
  underscore digit separators, which no input of interest contains.
* `datetime.strptime(s, "%Y-%m-%d")` is modelled after CPython's
  `_strptime` regexes: a 4-digit year, a 1–2 digit month in 1..12, a
  1–2 digit day validated against the month (leap years included), the
  whole string consumed, and `datetime` requires `1 ≤ year`.
  `date.strftime("%Y-%m-%d")` zero-pads.
* An uncaught Python exception (the `int(...)` call on a malformed catalog
  entry, which raises `ValueError`) is modelled as the `.error` branch of
  `Except`.
* The global mutable state (`bmi_history`, `daily_calories`, `tdee_value`)
  is threaded explicitly: each function takes the state it reads and
  returns the state it leaves behind.
-/

namespace HealthCalc

deriving instance DecidableEq for Except

/-! ### Python string primitives on `List Char` -/

/-- `str.split(sep)` worker: scan left to right, break at each
non-overlapping occurrence of `sep`. -/
def splitAux (sep : List Char) : ℕ → List Char → List Char → List (List Char)
  | 0, l, acc => [acc.reverse ++ l]
  | _ + 1, [], acc => [acc.reverse]
  | fuel + 1, c :: rest, acc =>
    if sep.isPrefixOf (c :: rest) then
      acc.reverse :: splitAux sep fuel (List.drop sep.length (c :: rest)) []
    else
      splitAux sep fuel rest (c :: acc)

/-- Python `s.split(sep)` for a non-empty separator. -/
def pySplit (s sep : String) : List String :=
  (splitAux sep.data (s.data.length + 1) s.data []).map String.mk

/-- `str.replace` worker: replace each non-overlapping occurrence,
left to right. -/
def replaceAux (pat repl : List Char) : ℕ → List Char → List Char
  | 0, l => l
  | _ + 1, [] => []
  | fuel + 1, c :: rest =>
    if pat.isPrefixOf (c :: rest) then
      repl ++ replaceAux pat repl fuel (List.drop pat.length (c :: rest))
    else
      c :: replaceAux pat repl fuel rest

/-- Python `s.replace(pat, repl)` for a non-empty pattern. -/
def pyReplace (s pat repl : String) : String :=
  String.mk (replaceAux pat.data repl.data (s.data.length + 1) s.data)

/-- The ASCII whitespace stripped by Python's `int(str)` conversion. -/
def isPySpace (c : Char) : Bool :=
  c = ' ' || c = '\t' || c = '\n' || c = '\r' || c = '\x0b' || c = '\x0c'

/-- Python `s.strip()` (ASCII whitespace). -/
def pyStrip (s : String) : String :=
  String.mk (((s.data.dropWhile isPySpace).reverse.dropWhile isPySpace).reverse)

/-- A non-empty run of decimal digits, as a number. -/
def parseDigits (l : List Char) : Option ℕ :=
  if l ≠ [] ∧ l.all Char.isDigit then
    some (l.foldl (fun n c => 10 * n + (c.toNat - 48)) 0)
  else none

/-- Python `int(s)`: strip whitespace, optional sign, decimal digits;
`none` models the raised `ValueError`. -/
def pyInt? (s : String) : Option ℤ :=
  match (pyStrip s).data with
  | '-' :: rest => (parseDigits rest).map fun n => -(n : ℤ)
  | '+' :: rest => (parseDigits rest).map fun n => (n : ℤ)
  | t => (parseDigits t).map fun n => (n : ℤ)

/-! ### Rounding: Python `round(x, 2)` -/

/-- Round-half-to-even of a rational to an integer. -/
def roundHalfEven (q : ℚ) : ℤ :=
  if q - ⌊q⌋ < 1/2 then ⌊q⌋
  else if q - ⌊q⌋ > 1/2 then ⌊q⌋ + 1
  else if ⌊q⌋ % 2 = 0 then ⌊q⌋ else ⌊q⌋ + 1

/-- Python `round(x, 2)` on the exact value. -/
def round2 (q : ℚ) : ℚ := (roundHalfEven (q * 100) : ℚ) / 100

/-- `convert_to_metric` (Kawaii.py lines 21–28). -/
def convert_to_metric (height weight : ℚ) (units : String) : ℚ × ℚ :=
  if units = "in/lbs" then (height * 2.54, weight * 0.453592)
  else (height, weight)

/-! ### Dates: `datetime.strptime(_, "%Y-%m-%d")` and `strftime` -/

structure Date where
  year : ℕ
  month : ℕ
  day : ℕ
deriving DecidableEq, Repr

def isLeap (y : ℕ) : Bool := (y % 4 == 0 && y % 100 != 0) || y % 400 == 0

def daysInMonth (y m : ℕ) : ℕ :=
  if m = 2 then (if isLeap y then 29 else 28)
  else if m = 4 ∨ m = 6 ∨ m = 9 ∨ m = 11 then 30
  else 31

/-- `datetime.strptime(s, "%Y-%m-%d")`. -/
def parseDate (s : String) : Option Date :=
  match pySplit s "-" with
  | [ys, ms, ds] =>
    match parseDigits ys.data, parseDigits ms.data, parseDigits ds.data with
    | some y, some m, some d =>
      if ys.data.length = 4 ∧ ms.data.length ≤ 2 ∧ ds.data.length ≤ 2
          ∧ 1 ≤ y ∧ 1 ≤ m ∧ m ≤ 12 ∧ 1 ≤ d ∧ d ≤ daysInMonth y m then
        some ⟨y, m, d⟩
      else none
    | _, _, _ => none
  | _ => none

def pad2 (n : ℕ) : String := if n < 10 then "0" ++ toString n else toString n

def pad4 (n : ℕ) : String :=
  if n < 10 then "000" ++ toString n
  else if n < 100 then "00" ++ toString n
  else if n < 1000 then "0" ++ toString n
  else toString n

/-- `date.strftime("%Y-%m-%d")`. -/
def formatDate (d : Date) : String :=
  pad4 d.year ++ "-" ++ pad2 d.month ++ "-" ++ pad2 d.day

/-! ### Python dicts as insertion-ordered association lists -/

/-- `d[k] = v` on a Python dict: replace in place if present, else append. -/
def dictInsert {α : Type} : List (String × α) → String → α → List (String × α)
  | [], k, v => [(k, v)]
  | p :: ps, k, v => if p.1 = k then (k, v) :: ps else p :: dictInsert ps k v

/-- `d.get(k)` / `k in d` lookup. -/
def dictLookup {α : Type} : List (String × α) → String → Option α
  | [], _ => none
  | p :: ps, k => if p.1 = k then some p.2 else dictLookup ps k

/-- `d.get(k, default)`. -/
def dictGet {α : Type} (m : List (String × α)) (k : String) (d : α) : α :=
  (dictLookup m k).getD d

/-- Number of entries stored under key `k` (a real dict always has 0 or 1). -/
def countKey {α : Type} : List (String × α) → String → ℕ
  | [], _ => 0
  | p :: ps, k => (if p.1 = k then 1 else 0) + countKey ps k

/-! ### Tab 1: `calculate_and_track_bmi` (Kawaii.py lines 31–65) -/

structure BmiOutput where
  bmi : ℚ
  category : String
  message : String
deriving DecidableEq, Repr

/-- The category if/elif chain (lines 52–59). -/
def classifyBmi (bmi : ℚ) : String :=
  if bmi < 18.5 then "Underweight"
  else if 18.5 ≤ bmi ∧ bmi < 24.9 then "Normal weight"
  else if 25 ≤ bmi ∧ bmi < 29.9 then "Overweight"
  else "Obese"

/-- The BMI value computed on the success path (lines 44–49). -/
def computeBmiValue (height weight : ℚ) (units : String) : ℚ :=
  let hw := convert_to_metric height weight units
  round2 (hw.2 / (hw.1 / 100) ^ 2)

/-- `calculate_and_track_bmi`, threading `bmi_history` explicitly.
Returns the `(bmi, category, message)` triple and the new history. -/
def calculate_and_track_bmi (height weight : ℚ) (units date_str : String)
    (bmi_history : List (String × ℚ)) : BmiOutput × List (String × ℚ) :=
  if height ≤ 0 ∨ weight ≤ 0 then
    (⟨0, "Invalid input", "Please enter positive values for height and weight."⟩,
      bmi_history)
  else
    match parseDate date_str with
    | none =>
      (⟨0, "Invalid date format", "Please enter date in YYYY-MM-DD format."⟩,
        bmi_history)
    | some date =>
      let bmi := computeBmiValue height weight units
      let category := classifyBmi bmi
      (⟨bmi, category, "Your BMI is " ++ toString bmi ++ ". Category: " ++ category⟩,
        dictInsert bmi_history (formatDate date) bmi)

/-! ### Tab 2: `calculate_bmr_tdee` (Kawaii.py lines 68–99) -/

structure EnergyOutput where
  bmr : ℚ
  tdee : ℚ
  maintenance : ℚ
  loss : ℚ
  gain : ℚ
  message : String
deriving DecidableEq, Repr

/-- `activity_multipliers.get(activity_level, 1.2)` (lines 82–90). -/
def activityMultiplier (level : String) : ℚ :=
  if level = "Sedentary (little to no exercise)" then 1.2
  else if level = "Lightly active (1-3 days/week)" then 1.375
  else if level = "Moderately active (3-5 days/week)" then 1.55
  else if level = "Very active (6-7 days/week)" then 1.725
  else if level = "Extra active (daily intense exercise)" then 1.9
  else 1.2

/-- `calculate_bmr_tdee`, threading the shared `tdee_value` explicitly.
Returns the six-tuple output and the new `tdee_value`. -/
def calculate_bmr_tdee (age : ℚ) (gender : String) (height weight : ℚ)
    (activity_level : String) (tdee_value : ℚ) : EnergyOutput × ℚ :=
  if age ≤ 0 ∨ height ≤ 0 ∨ weight ≤ 0 then
    (⟨0, 0, 0, 0, 0, "Please enter positive values for age, height, and weight."⟩,
      tdee_value)
  else
    let bmr :=
      if gender = "Male" then 66.5 + 13.75 * weight + 5.003 * height - 6.75 * age
      else 655.1 + 9.563 * weight + 1.850 * height - 4.676 * age
    let tdee := bmr * activityMultiplier activity_level
    (⟨bmr, tdee, tdee, tdee - 500, tdee + 500, "Results updated! ✨"⟩, tdee)

/-! ### Tab 3: `log_food_and_plot` (Kawaii.py lines 102–168) -/

/-- What the food tab renders in the plot slot: either a blank figure
carrying a title message (`create_empty_plot`, lines 13–18) or the bar
chart of per-date totals with the TDEE reference line (lines 139–167). -/
inductive ChartSignal
  | emptyPlot (message : String)
  | chart (data : List (String × ℚ)) (tdeeLine : ℚ)
deriving DecidableEq, Repr

structure FoodState where
  daily_calories : List (String × ℚ)
  tdee_value : ℚ
deriving DecidableEq, Repr

structure FoodOutput where
  todayTotal : ℚ
  plot : ChartSignal
  message : String
deriving DecidableEq, Repr

/-- Insertion sort, ascending; `sorted(daily_calories.keys())`. -/
def insortStr (x : String) : List String → List String
  | [] => [x]
  | y :: ys => if x ≤ y then x :: y :: ys else y :: insortStr x ys

def sortStrs (l : List String) : List String := l.foldr insortStr []

/-- The plotted data (lines 142–143): sorted dates paired with their
accumulated calories. -/
def chartData (m : List (String × ℚ)) : List (String × ℚ) :=
  (sortStrs (m.map Prod.fst)).map fun d => (d, dictGet m d 0)

/-- Lines 107–117: resolve the entry to `(calories_to_add, food_name_to_log)`,
starting from `(0, "")`.  `.error` models the uncaught `ValueError` raised by
`int(...)` on a catalog string whose calorie suffix does not parse. -/
def resolveEntry (food manual_food_name : String) (manual_calories : Option ℚ) :
    Except String (ℚ × String) :=
  if food ≠ "Other" then
    match pyInt? (pyReplace ((pySplit food " - ").getLastD "") " kcal" "") with
    | none => .error "ValueError: invalid literal for int() with base 10"
    | some n => .ok ((n : ℚ), (pySplit food " - ").headD "")
  else if manual_calories.getD 0 > 0 ∧ manual_food_name ≠ "" then
    .ok (manual_calories.getD 0, manual_food_name)
  else
    .ok (0, "")

/-- The success status message (line 129). -/
def successMessage (name : String) (calories : ℚ) : String :=
  "Food logged successfully! Logged: " ++ name ++ " - " ++ toString calories ++ " kcal 🎉"

/-- The placeholder message of the TDEE gate (lines 132–133). -/
def tdeePlaceholder : String := "Please calculate your TDEE in Tab 2 first! ☝️"

/-- The soft-failure message (line 119). -/
def invalidEntryMessage : String := "Please enter a valid calorie amount and food name. 😟"

/-- `log_food_and_plot`, threading the shared state explicitly and taking
`datetime.now().strftime('%Y-%m-%d')` as the `today_str` parameter.
Returns `(today's total, plot, status message)` and the new state, or
`.error` for the uncaught exception of line 112. -/
def log_food_and_plot (food manual_food_name : String) (manual_calories : Option ℚ)
    (today_str : String) (st : FoodState) :
    Except String (FoodOutput × FoodState) :=
  match resolveEntry food manual_food_name manual_calories with
  | .error e => .error e
  | .ok (calories_to_add, food_name_to_log) =>
    if calories_to_add ≤ 0 ∨ food_name_to_log = "" then
      .ok (⟨dictGet st.daily_calories today_str 0,
            .emptyPlot invalidEntryMessage, invalidEntryMessage⟩, st)
    else
      let daily' := dictInsert st.daily_calories today_str
        (dictGet st.daily_calories today_str 0 + calories_to_add)
      let st' : FoodState := ⟨daily', st.tdee_value⟩
      if st.tdee_value = 0 then
        .ok (⟨dictGet daily' today_str 0, .emptyPlot tdeePlaceholder,
              tdeePlaceholder⟩, st')
      else if daily' = [] then
        .ok (⟨0, .emptyPlot "No Data to Display", "No food logged yet. 🥗"⟩, st')
      else
        .ok (⟨dictGet daily' today_str 0, .chart (chartData daily') st.tdee_value,
              successMessage food_name_to_log calories_to_add⟩, st')

/-- Substring search worker. -/
def containsAux (pat : List Char) : List Char → Bool
  | [] => pat.isPrefixOf []
  | c :: rest => pat.isPrefixOf (c :: rest) || containsAux pat rest

/-- Python's `sub in s` substring test. -/
def pyContains (s sub : String) : Bool := containsAux sub.data s.data

/-- The per-call state transformer of the BMI tab: a sequence of button
clicks folds `calculate_and_track_bmi` over the history.  Each call is
`(height, weight, units, date_str)`. -/
def runBmi (hist : List (String × ℚ)) (calls : List (ℚ × ℚ × String × String)) :
    List (String × ℚ) :=
  calls.foldl (fun hst c => (calculate_and_track_bmi c.1 c.2.1 c.2.2.1 c.2.2.2 hst).2) hist

/-! ## Helper lemmas -/

theorem dictLookup_insert_self {α : Type} (m : List (String × α)) (k : String) (v : α) :
    dictLookup (dictInsert m k v) k = some v := by
  induction m with
  | nil => simp [dictInsert, dictLookup]
  | cons p ps ih =>
    by_cases h : p.1 = k
    · simp [dictInsert, dictLookup, h]
    · simp [dictInsert, dictLookup, h, ih]

theorem dictLookup_insert_ne {α : Type} (m : List (String × α)) (k k' : String) (v : α)
    (h : k' ≠ k) : dictLookup (dictInsert m k v) k' = dictLookup m k' := by
  have hkk : ¬k = k' := fun he => h he.symm
  induction m with
  | nil => simp only [dictInsert, dictLookup, if_neg hkk]
  | cons p ps ih =>
    by_cases hp : p.1 = k
    · have hpk : ¬p.1 = k' := by rw [hp]; exact hkk
      simp only [dictInsert, if_pos hp, dictLookup, if_neg hkk, if_neg hpk]
    · simp only [dictInsert, if_neg hp, dictLookup, ih]

theorem dictGet_insert_self {α : Type} (m : List (String × α)) (k : String) (v d : α) :
    dictGet (dictInsert m k v) k d = v := by
  simp [dictGet, dictLookup_insert_self]

theorem dictInsert_ne_nil {α : Type} (m : List (String × α)) (k : String) (v : α) :
    dictInsert m k v ≠ [] := by
  cases m with
  | nil => simp [dictInsert]
  | cons p ps =>
    by_cases h : p.1 = k <;> simp [dictInsert, h]

theorem countKey_insert {α : Type} (m : List (String × α)) (k : String) (v : α)
    (h : countKey m k ≤ 1) : countKey (dictInsert m k v) k = 1 := by
  induction m with
  | nil => simp [dictInsert, countKey]
  | cons p ps ih =>
    by_cases hp : p.1 = k
    · have hps : countKey ps k = 0 := by
        simp only [countKey, if_pos hp] at h
        omega
      simp [dictInsert, if_pos hp, countKey, hps]
    · simp only [countKey, if_neg hp] at h
      simp [dictInsert, if_neg hp, countKey, ih (by omega)]

/-- On the success path (positive inputs, parsable date) the BMI tab
computes the rounded BMI and writes it into the history under the
normalized date string. -/
theorem bmi_success_step (h w : ℚ) (u ds : String) (hist : List (String × ℚ))
    (hh : 0 < h) (hw : 0 < w) (d : Date) (hd : parseDate ds = some d) :
    calculate_and_track_bmi h w u ds hist =
      (⟨computeBmiValue h w u, classifyBmi (computeBmiValue h w u),
        "Your BMI is " ++ toString (computeBmiValue h w u) ++ ". Category: "
          ++ classifyBmi (computeBmiValue h w u)⟩,
       dictInsert hist (formatDate d) (computeBmiValue h w u)) := by
  unfold calculate_and_track_bmi
  rw [if_neg (by push_neg; exact ⟨hh, hw⟩), hd]

theorem classifyBmi_underweight (b : ℚ) (hb : b < 18.5) :
    classifyBmi b = "Underweight" := by
  unfold classifyBmi
  rw [if_pos hb]

theorem classifyBmi_normal (b : ℚ) (h1 : 18.5 ≤ b) (h2 : b < 24.9) :
    classifyBmi b = "Normal weight" := by
  unfold classifyBmi
  rw [if_neg (by linarith), if_pos ⟨h1, h2⟩]

theorem classifyBmi_overweight (b : ℚ) (h1 : 25 ≤ b) (h2 : b < 29.9) :
    classifyBmi b = "Overweight" := by
  unfold classifyBmi
  rw [if_neg (by linarith), if_neg (by rintro ⟨-, h⟩; linarith), if_pos ⟨h1, h2⟩]

theorem classifyBmi_obese_gap (b : ℚ) (h1 : 24.9 ≤ b) (h2 : b < 25) :
    classifyBmi b = "Obese" := by
  unfold classifyBmi
  rw [if_neg (by linarith), if_neg (by rintro ⟨-, h⟩; linarith),
    if_neg (by rintro ⟨h, -⟩; linarith)]

theorem classifyBmi_obese_high (b : ℚ) (h1 : 29.9 ≤ b) :
    classifyBmi b = "Obese" := by
  unfold classifyBmi
  rw [if_neg (by linarith), if_neg (by rintro ⟨-, h⟩; linarith),
    if_neg (by rintro ⟨-, h⟩; linarith)]

/-- Evaluation rule for `round2` when the scaled value rounds down. -/
theorem round2_eq_down (q : ℚ) (n : ℤ) (h1 : (n : ℚ) ≤ q * 100)
    (h2 : q * 100 < (n : ℚ) + 1/2) : round2 q = (n : ℚ) / 100 := by
  have hf : ⌊q * 100⌋ = n := Int.floor_eq_iff.mpr ⟨h1, by linarith⟩
  unfold round2 roundHalfEven
  rw [hf, if_pos (by linarith)]

/-- Evaluation rule for `round2` when the scaled value rounds up. -/
theorem round2_eq_up (q : ℚ) (n : ℤ) (h1 : (n : ℚ) + 1/2 < q * 100)
    (h2 : q * 100 < (n : ℚ) + 1) : round2 q = ((n : ℚ) + 1) / 100 := by
  have hf : ⌊q * 100⌋ = n := Int.floor_eq_iff.mpr ⟨by linarith, by linarith⟩
  unfold round2 roundHalfEven
  rw [hf, if_neg (by linarith), if_pos (by linarith)]
  push_cast
  ring

theorem computeBmiValue_170_70 : computeBmiValue 170 70 "cm/kg" = 24.22 := by
  unfold computeBmiValue convert_to_metric
  rw [if_neg (by decide)]
  rw [round2_eq_down _ 2422 (by norm_num) (by norm_num)]
  norm_num

theorem computeBmiValue_170_90 : computeBmiValue 170 90 "cm/kg" = 31.14 := by
  unfold computeBmiValue convert_to_metric
  rw [if_neg (by decide)]
  rw [round2_eq_down _ 3114 (by norm_num) (by norm_num)]
  norm_num

theorem computeBmiValue_170_53 : computeBmiValue 170 53 "cm/kg" = 18.34 := by
  unfold computeBmiValue convert_to_metric
  rw [if_neg (by decide)]
  rw [round2_eq_up _ 1833 (by norm_num) (by norm_num)]
  norm_num

/-- Reduction of `log_food_and_plot` once the entry resolution is known. -/
theorem log_resolved_step (food name today : String) (mc : Option ℚ)
    (st : FoodState) (c : ℚ) (n : String)
    (hres : resolveEntry food name mc = .ok (c, n)) :
    log_food_and_plot food name mc today st =
      (if c ≤ 0 ∨ n = "" then
        .ok (⟨dictGet st.daily_calories today 0,
              .emptyPlot invalidEntryMessage, invalidEntryMessage⟩, st)
      else if st.tdee_value = 0 then
        .ok (⟨dictGet (dictInsert st.daily_calories today
                (dictGet st.daily_calories today 0 + c)) today 0,
              .emptyPlot tdeePlaceholder, tdeePlaceholder⟩,
             ⟨dictInsert st.daily_calories today
                (dictGet st.daily_calories today 0 + c), st.tdee_value⟩)
      else if dictInsert st.daily_calories today
          (dictGet st.daily_calories today 0 + c) = [] then
        .ok (⟨0, .emptyPlot "No Data to Display", "No food logged yet. 🥗"⟩,
             ⟨dictInsert st.daily_calories today
                (dictGet st.daily_calories today 0 + c), st.tdee_value⟩)
      else
        .ok (⟨dictGet (dictInsert st.daily_calories today
                (dictGet st.daily_calories today 0 + c)) today 0,
              .chart (chartData (dictInsert st.daily_calories today
                (dictGet st.daily_calories today 0 + c))) st.tdee_value,
              successMessage n c⟩,
             ⟨dictInsert st.daily_calories today
                (dictGet st.daily_calories today 0 + c), st.tdee_value⟩)) := by
  unfold log_food_and_plot
  rw [hres]

/-! ## Claim theorems -/

/-- Claim C1: for every height > 0, weight > 0 and a date string parsing as
YYYY-MM-DD, `calculate_and_track_bmi` converts to metric, returns the BMI
`weightKg / (heightCm/100)^2` rounded to 2 decimal places, and classifies it
Underweight when bmi < 18.5, Normal weight when 18.5 ≤ bmi < 24.9, Overweight
when 25 ≤ bmi < 29.9, and Obese otherwise (in particular a rounded bmi in
[24.9, 25) is Obese); at 170 cm the weights 70/90/53 kg give 24.22 "Normal
weight", 31.14 "Obese", 18.34 "Underweight". -/
theorem bmi_formula_and_classification (h w : ℚ) (units ds : String)
    (hist : List (String × ℚ)) (hh : 0 < h) (hw : 0 < w) (d : Date)
    (hd : parseDate ds = some d) :
    ((calculate_and_track_bmi h w units ds hist).1.bmi =
        round2 ((convert_to_metric h w units).2
          / ((convert_to_metric h w units).1 / 100) ^ 2)
      ∧ ((calculate_and_track_bmi h w units ds hist).1.bmi < 18.5 →
          (calculate_and_track_bmi h w units ds hist).1.category = "Underweight")
      ∧ (18.5 ≤ (calculate_and_track_bmi h w units ds hist).1.bmi
          ∧ (calculate_and_track_bmi h w units ds hist).1.bmi < 24.9 →
          (calculate_and_track_bmi h w units ds hist).1.category = "Normal weight")
      ∧ (25 ≤ (calculate_and_track_bmi h w units ds hist).1.bmi
          ∧ (calculate_and_track_bmi h w units ds hist).1.bmi < 29.9 →
          (calculate_and_track_bmi h w units ds hist).1.category = "Overweight")
      ∧ (24.9 ≤ (calculate_and_track_bmi h w units ds hist).1.bmi
          ∧ (calculate_and_track_bmi h w units ds hist).1.bmi < 25 →
          (calculate_and_track_bmi h w units ds hist).1.category = "Obese")
      ∧ (29.9 ≤ (calculate_and_track_bmi h w units ds hist).1.bmi →
          (calculate_and_track_bmi h w units ds hist).1.category = "Obese"))
    ∧ (calculate_and_track_bmi 170 70 "cm/kg" ds hist).1.bmi = 24.22
    ∧ (calculate_and_track_bmi 170 70 "cm/kg" ds hist).1.category = "Normal weight"
    ∧ (calculate_and_track_bmi 170 90 "cm/kg" ds hist).1.bmi = 31.14
    ∧ (calculate_and_track_bmi 170 90 "cm/kg" ds hist).1.category = "Obese"
    ∧ (calculate_and_track_bmi 170 53 "cm/kg" ds hist).1.bmi = 18.34
    ∧ (calculate_and_track_bmi 170 53 "cm/kg" ds hist).1.category = "Underweight" := by
  rw [bmi_success_step h w units ds hist hh hw d hd,
    bmi_success_step 170 70 "cm/kg" ds hist (by norm_num) (by norm_num) d hd,
    bmi_success_step 170 90 "cm/kg" ds hist (by norm_num) (by norm_num) d hd,
    bmi_success_step 170 53 "cm/kg" ds hist (by norm_num) (by norm_num) d hd]
  refine ⟨⟨rfl, ?_, ?_, ?_, ?_, ?_⟩, ?_, ?_, ?_, ?_, ?_, ?_⟩
  · exact fun hb => classifyBmi_underweight _ hb
  · exact fun hb => classifyBmi_normal _ hb.1 hb.2
  · exact fun hb => classifyBmi_overweight _ hb.1 hb.2
  · exact fun hb => classifyBmi_obese_gap _ hb.1 hb.2
  · exact fun hb => classifyBmi_obese_high _ hb
  · exact computeBmiValue_170_70
  · rw [computeBmiValue_170_70]
    exact classifyBmi_normal _ (by norm_num) (by norm_num)
  · exact computeBmiValue_170_90
  · rw [computeBmiValue_170_90]
    exact classifyBmi_obese_high _ (by norm_num)
  · exact computeBmiValue_170_53
  · rw [computeBmiValue_170_53]
    exact classifyBmi_underweight _ (by norm_num)

theorem bmi_formula_and_classification_witness :
    (0 : ℚ) < 170 ∧ (0 : ℚ) < 70 ∧ parseDate "2024-01-15" = some ⟨2024, 1, 15⟩
    ∧ (calculate_and_track_bmi 170 70 "cm/kg" "2024-01-15" []).1.bmi = 24.22
    ∧ (calculate_and_track_bmi 170 70 "cm/kg" "2024-01-15" []).1.category = "Normal weight"
    ∧ (calculate_and_track_bmi 170 90 "cm/kg" "2024-01-15" []).1.bmi = 31.14
    ∧ (calculate_and_track_bmi 170 90 "cm/kg" "2024-01-15" []).1.category = "Obese"
    ∧ (calculate_and_track_bmi 170 53 "cm/kg" "2024-01-15" []).1.bmi = 18.34
    ∧ (calculate_and_track_bmi 170 53 "cm/kg" "2024-01-15" []).1.category = "Underweight" :=
  ⟨by norm_num, by norm_num, by decide,
    (bmi_formula_and_classification 170 70 "cm/kg" "2024-01-15" []
      (by norm_num) (by norm_num) ⟨2024, 1, 15⟩ (by decide)).2⟩

/-- Claim C2: for every age > 0, height > 0, weight > 0,
`calculate_bmr_tdee` returns the Harris-Benedict BMR
(`66.5 + 13.75*w + 5.003*h − 6.75*age` for the exact gender string "Male",
`655.1 + 9.563*w + 1.850*h − 4.676*age` otherwise), multiplies it by the
fixed activity multiplier (Sedentary 1.2, Lightly active 1.375, Moderately
active 1.55, Very active 1.725, Extra active 1.9, default 1.2 for any
unrecognized level), and returns maintenance = tdee, loss = tdee − 500,
gain = tdee + 500. -/
theorem bmr_tdee_formulas (age h w tv : ℚ) (gender level : String)
    (ha : 0 < age) (hh : 0 < h) (hw : 0 < w) :
    ((calculate_bmr_tdee age gender h w level tv).1.bmr =
        (if gender = "Male" then 66.5 + 13.75 * w + 5.003 * h - 6.75 * age
         else 655.1 + 9.563 * w + 1.850 * h - 4.676 * age)
      ∧ (calculate_bmr_tdee age gender h w level tv).1.tdee =
          (calculate_bmr_tdee age gender h w level tv).1.bmr * activityMultiplier level
      ∧ (calculate_bmr_tdee age gender h w level tv).1.maintenance =
          (calculate_bmr_tdee age gender h w level tv).1.tdee
      ∧ (calculate_bmr_tdee age gender h w level tv).1.loss =
          (calculate_bmr_tdee age gender h w level tv).1.tdee - 500
      ∧ (calculate_bmr_tdee age gender h w level tv).1.gain =
          (calculate_bmr_tdee age gender h w level tv).1.tdee + 500)
    ∧ activityMultiplier "Sedentary (little to no exercise)" = 1.2
    ∧ activityMultiplier "Lightly active (1-3 days/week)" = 1.375
    ∧ activityMultiplier "Moderately active (3-5 days/week)" = 1.55
    ∧ activityMultiplier "Very active (6-7 days/week)" = 1.725
    ∧ activityMultiplier "Extra active (daily intense exercise)" = 1.9
    ∧ (level ∉ ["Sedentary (little to no exercise)", "Lightly active (1-3 days/week)",
          "Moderately active (3-5 days/week)", "Very active (6-7 days/week)",
          "Extra active (daily intense exercise)"] →
        activityMultiplier level = 1.2) := by
  unfold calculate_bmr_tdee
  rw [if_neg (by push_neg; exact ⟨ha, hh, hw⟩)]
  refine ⟨⟨rfl, rfl, rfl, rfl, rfl⟩, ?_, ?_, ?_, ?_, ?_, ?_⟩
  · simp +decide [activityMultiplier]
  · simp +decide [activityMultiplier]
  · simp +decide [activityMultiplier]
  · simp +decide [activityMultiplier]
  · simp +decide [activityMultiplier]
  · intro hnot
    simp only [List.mem_cons, List.not_mem_nil, or_false] at hnot
    push_neg at hnot
    obtain ⟨h1, h2, h3, h4, h5⟩ := hnot
    simp [activityMultiplier, h1, h2, h3, h4, h5]

theorem bmr_tdee_formulas_witness :
    (0 : ℚ) < 30 ∧ (0 : ℚ) < 170 ∧ (0 : ℚ) < 70
    ∧ (calculate_bmr_tdee 30 "Male" 170 70 "Sedentary (little to no exercise)" 0).1.bmr =
        (if ("Male" : String) = "Male" then 66.5 + 13.75 * 70 + 5.003 * 170 - 6.75 * 30
         else 655.1 + 9.563 * 70 + 1.850 * 170 - 4.676 * 30)
    ∧ activityMultiplier "Sedentary (little to no exercise)" = 1.2 :=
  ⟨by norm_num, by norm_num, by norm_num,
    (bmr_tdee_formulas 30 170 70 0 "Male" "Sedentary (little to no exercise)"
      (by norm_num) (by norm_num) (by norm_num)).1.1,
    (bmr_tdee_formulas 30 170 70 0 "Male" "Sedentary (little to no exercise)"
      (by norm_num) (by norm_num) (by norm_num)).2.1⟩

/-- Claim C5: `calculate_and_track_bmi` returns the InvalidInput result
(zero bmi plus an explanatory message) when height ≤ 0 or weight ≤ 0, and
the InvalidDate result when the inputs are positive but the date string
does not parse as YYYY-MM-DD; in both cases the stored BMI history is left
completely unchanged. -/
theorem bmi_error_paths_no_mutation (h w : ℚ) (units ds : String)
    (hist : List (String × ℚ)) :
    ((h ≤ 0 ∨ w ≤ 0) →
      calculate_and_track_bmi h w units ds hist =
        (⟨0, "Invalid input", "Please enter positive values for height and weight."⟩,
          hist))
    ∧ (0 < h → 0 < w → parseDate ds = none →
      calculate_and_track_bmi h w units ds hist =
        (⟨0, "Invalid date format", "Please enter date in YYYY-MM-DD format."⟩,
          hist)) := by
  constructor
  · intro hbad
    unfold calculate_and_track_bmi
    rw [if_pos hbad]
  · intro hh hw hd
    unfold calculate_and_track_bmi
    rw [if_neg (by push_neg; exact ⟨hh, hw⟩), hd]

theorem bmi_error_paths_no_mutation_witness :
    ((0 : ℚ) ≤ 0 ∨ (70 : ℚ) ≤ 0)
    ∧ calculate_and_track_bmi 0 70 "cm/kg" "2024-01-15" [("2024-01-10", 22.5)] =
        (⟨0, "Invalid input", "Please enter positive values for height and weight."⟩,
          [("2024-01-10", 22.5)])
    ∧ (0 : ℚ) < 170 ∧ (0 : ℚ) < 70 ∧ parseDate "2024-02-30" = none
    ∧ calculate_and_track_bmi 170 70 "cm/kg" "2024-02-30" [("2024-01-10", 22.5)] =
        (⟨0, "Invalid date format", "Please enter date in YYYY-MM-DD format."⟩,
          [("2024-01-10", 22.5)]) :=
  ⟨Or.inl le_rfl,
    (bmi_error_paths_no_mutation 0 70 "cm/kg" "2024-01-15" [("2024-01-10", 22.5)]).1
      (Or.inl le_rfl),
    by norm_num, by norm_num, by decide,
    (bmi_error_paths_no_mutation 170 70 "cm/kg" "2024-02-30" [("2024-01-10", 22.5)]).2
      (by norm_num) (by norm_num) (by decide)⟩

/-- Claim C10: `calculate_bmr_tdee` compares the gender argument only
against the exact string "Male": every other value (e.g. "Female", "male",
"", arbitrary text) silently gets the female Harris-Benedict formula, and
for positive inputs the call still succeeds with the normal status message
(no gender validation, no gender-related error path). -/
theorem gender_fallthrough (age h w tv : ℚ) (gender level : String)
    (ha : 0 < age) (hh : 0 < h) (hw : 0 < w) (hg : gender ≠ "Male") :
    (calculate_bmr_tdee age gender h w level tv).1.bmr =
      655.1 + 9.563 * w + 1.850 * h - 4.676 * age
    ∧ (calculate_bmr_tdee age gender h w level tv).1.message = "Results updated! ✨" := by
  unfold calculate_bmr_tdee
  rw [if_neg (by push_neg; exact ⟨ha, hh, hw⟩)]
  rw [if_neg hg]
  exact ⟨rfl, rfl⟩

theorem gender_fallthrough_witness :
    (0 : ℚ) < 30 ∧ (0 : ℚ) < 170 ∧ (0 : ℚ) < 70 ∧ ("male" : String) ≠ "Male"
    ∧ (calculate_bmr_tdee 30 "male" 170 70 "Sedentary (little to no exercise)" 0).1.bmr =
        655.1 + 9.563 * 70 + 1.850 * 170 - 4.676 * 30
    ∧ (calculate_bmr_tdee 30 "male" 170 70
        "Sedentary (little to no exercise)" 0).1.message = "Results updated! ✨" :=
  ⟨by norm_num, by norm_num, by norm_num, by decide,
    gender_fallthrough 30 170 70 0 "male" "Sedentary (little to no exercise)"
      (by norm_num) (by norm_num) (by norm_num) (by decide)⟩

/-- Claim C3: when an entry resolves to valid calories and name but the
shared `tdee_value` is 0 (no successful `calculate_bmr_tdee` call yet),
`log_food_and_plot` still adds the calories to today's total, but returns
the "compute TDEE first" placeholder instead of chart data; the chart
(sorted per-date totals plus the TDEE reference line) is returned only
when `tdee_value` is nonzero. -/
theorem tdee_chart_gating (food name today : String) (mc : Option ℚ)
    (st : FoodState) (c : ℚ) (n : String)
    (hres : resolveEntry food name mc = .ok (c, n)) (hc : 0 < c) (hn : n ≠ "") :
    (st.tdee_value = 0 →
      log_food_and_plot food name mc today st =
        .ok (⟨dictGet st.daily_calories today 0 + c,
              .emptyPlot tdeePlaceholder, tdeePlaceholder⟩,
             ⟨dictInsert st.daily_calories today
                (dictGet st.daily_calories today 0 + c), st.tdee_value⟩))
    ∧ (st.tdee_value ≠ 0 →
      log_food_and_plot food name mc today st =
        .ok (⟨dictGet st.daily_calories today 0 + c,
              .chart (chartData (dictInsert st.daily_calories today
                (dictGet st.daily_calories today 0 + c))) st.tdee_value,
              successMessage n c⟩,
             ⟨dictInsert st.daily_calories today
                (dictGet st.daily_calories today 0 + c), st.tdee_value⟩)) := by
  rw [log_resolved_step food name today mc st c n hres,
    if_neg (by push_neg; exact ⟨hc, hn⟩)]
  constructor
  · intro h0
    rw [if_pos h0, dictGet_insert_self]
  · intro h0
    rw [if_neg h0, if_neg (dictInsert_ne_nil _ _ _), dictGet_insert_self]

theorem tdee_chart_gating_witness :
    resolveEntry "Rice - 130 kcal" "" none = .ok (((130 : ℤ) : ℚ), "Rice")
    ∧ (0 : ℚ) < ((130 : ℤ) : ℚ) ∧ ("Rice" : String) ≠ ""
    ∧ (FoodState.tdee_value ⟨[], 0⟩ = 0 →
      log_food_and_plot "Rice - 130 kcal" "" none "2024-01-01" ⟨[], 0⟩ =
        .ok (⟨dictGet (FoodState.daily_calories ⟨[], 0⟩) "2024-01-01" 0 + ((130 : ℤ) : ℚ),
              .emptyPlot tdeePlaceholder, tdeePlaceholder⟩,
             ⟨dictInsert (FoodState.daily_calories ⟨[], 0⟩) "2024-01-01"
                (dictGet (FoodState.daily_calories ⟨[], 0⟩) "2024-01-01" 0 + ((130 : ℤ) : ℚ)),
              FoodState.tdee_value ⟨[], 0⟩⟩)) :=
  ⟨by decide, by norm_num, by decide,
    (tdee_chart_gating "Rice - 130 kcal" "" "2024-01-01" none ⟨[], 0⟩
      ((130 : ℤ) : ℚ) "Rice" (by decide) (by norm_num) (by decide)).1⟩

/-- Claim C6: whenever the resolved calories are ≤ 0 or the resolved name
is empty — in particular when the catalog selection is "Other" and the
manual entry is absent, non-positive or unnamed — `log_food_and_plot`
fails softly: no exception, the unmodified current total for today, an
empty/placeholder chart signal, a descriptive message, and no change to
any daily calorie total. -/
theorem log_soft_failure (food name today : String) (mc : Option ℚ)
    (st : FoodState) :
    (∀ c n, resolveEntry food name mc = .ok (c, n) → (c ≤ 0 ∨ n = "") →
      log_food_and_plot food name mc today st =
        .ok (⟨dictGet st.daily_calories today 0,
              .emptyPlot invalidEntryMessage, invalidEntryMessage⟩, st))
    ∧ (food = "Other" → (mc = none ∨ mc.getD 0 ≤ 0 ∨ name = "") →
      resolveEntry food name mc = .ok (0, "")) := by
  constructor
  · intro c n hres hbad
    rw [log_resolved_step food name today mc st c n hres, if_pos hbad]
  · intro hfood hcase
    unfold resolveEntry
    rw [if_neg (not_not_intro hfood), if_neg ?hcond]
    case hcond =>
      rintro ⟨hpos, hname⟩
      rcases hcase with hnone | hle | hempty
      · rw [hnone] at hpos
        exact absurd hpos (by norm_num)
      · exact absurd hpos (not_lt.mpr hle)
      · exact hname hempty

theorem log_soft_failure_witness :
    (resolveEntry "Other" "Salad" (some 0) = .ok (0, "")
      ∧ log_food_and_plot "Other" "Salad" (some 0) "2024-01-01"
          ⟨[("2024-01-01", 700)], 2000⟩ =
        .ok (⟨dictGet [("2024-01-01", (700 : ℚ))] "2024-01-01" 0,
              .emptyPlot invalidEntryMessage, invalidEntryMessage⟩,
             ⟨[("2024-01-01", 700)], 2000⟩))
    ∧ ("Other" : String) = "Other" ∧ ((some (0 : ℚ)).getD 0 ≤ 0 ∨ True) :=
  ⟨⟨(log_soft_failure "Other" "Salad" "2024-01-01" (some 0)
        ⟨[("2024-01-01", 700)], 2000⟩).2 rfl (Or.inr (Or.inl (by norm_num))),
    (log_soft_failure "Other" "Salad" "2024-01-01" (some 0)
        ⟨[("2024-01-01", 700)], 2000⟩).1 0 ""
      ((log_soft_failure "Other" "Salad" "2024-01-01" (some 0)
          ⟨[("2024-01-01", 700)], 2000⟩).2 rfl (Or.inr (Or.inl (by norm_num))))
      (Or.inl le_rfl)⟩,
    rfl, Or.inl (by norm_num)⟩

/-- Claim C4 (code bug): on a catalog selection other than "Other" whose
embedded calorie suffix does not parse as an integer, `log_food_and_plot`
does not return a structured "malformed catalog entry" result: the `int()`
call raises an uncaught `ValueError` (the `.error` branch of the model),
contradicting the spec's error-handling design. -/
theorem malformed_catalog_raises :
    log_food_and_plot "Banana - abc kcal" "" none "2024-01-01" ⟨[], 0⟩ =
      .error "ValueError: invalid literal for int() with base 10"
    ∧ ∀ r, log_food_and_plot "Banana - abc kcal" "" none "2024-01-01" ⟨[], 0⟩ ≠ .ok r := by
  constructor
  · decide
  · intro r hr
    rw [show log_food_and_plot "Banana - abc kcal" "" none "2024-01-01" ⟨[], 0⟩ =
        .error "ValueError: invalid literal for int() with base 10" from by decide] at hr
    exact Except.noConfusion hr

/-- Claim C7 counterexample: a perfectly valid entry logged while the
shared `tdee_value` is 0 does update the total, but the returned status
message is the TDEE placeholder — it does not embed the logged food name,
so "the updated total is returned with a success message embedding the
logged name and amount" fails as stated. -/
theorem log_success_message_gated_cex :
    log_food_and_plot "Rice - 130 kcal" "" none "2024-01-01" ⟨[], 0⟩ =
      .ok (⟨130, .emptyPlot tdeePlaceholder, tdeePlaceholder⟩,
           ⟨[("2024-01-01", 130)], 0⟩)
    ∧ pyContains tdeePlaceholder "Rice" = false := by
  constructor
  · simp only [log_food_and_plot]
    rw [show resolveEntry "Rice - 130 kcal" "" none = .ok ((130 : ℤ), "Rice")
      from by decide]
    norm_num +decide [dictGet, dictLookup, dictInsert]
  · decide

/-- Claim C7 (amended): on every successful `log_food_and_plot`, the
resolved calories are added to today's accumulated total (creating the
entry if absent), the updated total is returned, and the total of every
other date — and the shared `tdee_value` — is unchanged; the success
message embedding the logged name and amount is returned provided a TDEE
has been computed (`tdee_value ≠ 0`; otherwise the placeholder message
replaces it, see C3).  Logging 500 kcal then 90 kcal on the same day
yields 590 for that day and leaves other days untouched. -/
theorem log_success_accumulates (food name today : String) (mc : Option ℚ)
    (st : FoodState) (c : ℚ) (n : String)
    (hres : resolveEntry food name mc = .ok (c, n)) (hc : 0 < c) (hn : n ≠ "") :
    ((log_food_and_plot food name mc today st).map (fun r => r.2.daily_calories) =
        .ok (dictInsert st.daily_calories today (dictGet st.daily_calories today 0 + c))
      ∧ (log_food_and_plot food name mc today st).map (fun r => r.1.todayTotal) =
          .ok (dictGet st.daily_calories today 0 + c)
      ∧ (∀ day, day ≠ today →
          (log_food_and_plot food name mc today st).map
              (fun r => dictLookup r.2.daily_calories day) =
            .ok (dictLookup st.daily_calories day))
      ∧ (log_food_and_plot food name mc today st).map (fun r => r.2.tdee_value) =
          .ok st.tdee_value
      ∧ (st.tdee_value ≠ 0 →
          (log_food_and_plot food name mc today st).map (fun r => r.1.message) =
            .ok (successMessage n c)))
    ∧ log_food_and_plot "Chicken with bazil - 500 kcal" "" none "2024-01-02"
        ⟨[("2024-01-01", 700)], 2000⟩ =
      .ok (⟨500, .chart (chartData [("2024-01-01", 700), ("2024-01-02", 500)]) 2000,
            successMessage "Chicken with bazil" 500⟩,
           ⟨[("2024-01-01", 700), ("2024-01-02", 500)], 2000⟩)
    ∧ log_food_and_plot "Tom Yum Kung - 90 kcal" "" none "2024-01-02"
        ⟨[("2024-01-01", 700), ("2024-01-02", 500)], 2000⟩ =
      .ok (⟨590, .chart (chartData [("2024-01-01", 700), ("2024-01-02", 590)]) 2000,
            successMessage "Tom Yum Kung" 90⟩,
           ⟨[("2024-01-01", 700), ("2024-01-02", 590)], 2000⟩) := by
  have hcond : ¬(c ≤ 0 ∨ n = "") := by push_neg; exact ⟨hc, hn⟩
  have key := log_resolved_step food name today mc st c n hres
  have hsplit : ∃ pl ms,
      log_food_and_plot food name mc today st =
        .ok (⟨dictGet (dictInsert st.daily_calories today
                (dictGet st.daily_calories today 0 + c)) today 0, pl, ms⟩,
             ⟨dictInsert st.daily_calories today
                (dictGet st.daily_calories today 0 + c), st.tdee_value⟩)
      ∧ (st.tdee_value ≠ 0 → ms = successMessage n c) := by
    by_cases h0 : st.tdee_value = 0
    · refine ⟨.emptyPlot tdeePlaceholder, tdeePlaceholder, ?_, fun hne => absurd h0 hne⟩
      rw [key, if_neg hcond, if_pos h0]
    · refine ⟨.chart (chartData (dictInsert st.daily_calories today
          (dictGet st.daily_calories today 0 + c))) st.tdee_value,
        successMessage n c, ?_, fun _ => rfl⟩
      rw [key, if_neg hcond, if_neg h0, if_neg (dictInsert_ne_nil _ _ _)]
  obtain ⟨pl, ms, heq, hms⟩ := hsplit
  refine ⟨⟨?_, ?_, ?_, ?_, ?_⟩, ?_, ?_⟩
  · rw [heq]
    rfl
  · rw [heq]
    simp only [Except.map]
    rw [dictGet_insert_self]
  · intro day hday
    rw [heq]
    simp only [Except.map]
    rw [dictLookup_insert_ne _ _ _ _ hday]
  · rw [heq]
    rfl
  · intro hne
    rw [heq]
    simp only [Except.map, hms hne]
  · simp only [log_food_and_plot]
    rw [show resolveEntry "Chicken with bazil - 500 kcal" "" none =
        .ok ((500 : ℤ), "Chicken with bazil") from by decide]
    norm_num +decide [dictGet, dictLookup, dictInsert]
  · simp only [log_food_and_plot]
    rw [show resolveEntry "Tom Yum Kung - 90 kcal" "" none =
        .ok ((90 : ℤ), "Tom Yum Kung") from by decide]
    norm_num +decide [dictGet, dictLookup, dictInsert]

theorem log_success_accumulates_witness :
    resolveEntry "Rice - 130 kcal" "" none = .ok (((130 : ℤ) : ℚ), "Rice")
    ∧ (0 : ℚ) < ((130 : ℤ) : ℚ) ∧ ("Rice" : String) ≠ ""
    ∧ (log_food_and_plot "Rice - 130 kcal" "" none "2024-01-01"
          ⟨[("2023-12-31", 400)], 2000⟩).map (fun r => r.1.todayTotal) =
        .ok (dictGet [("2023-12-31", (400 : ℚ))] "2024-01-01" 0 + ((130 : ℤ) : ℚ))
    ∧ (("2023-12-31" : String) ≠ "2024-01-01" →
        (log_food_and_plot "Rice - 130 kcal" "" none "2024-01-01"
            ⟨[("2023-12-31", 400)], 2000⟩).map
            (fun r => dictLookup r.2.daily_calories "2023-12-31") =
          .ok (dictLookup [("2023-12-31", (400 : ℚ))] "2023-12-31"))
    ∧ ((2000 : ℚ) ≠ 0 →
        (log_food_and_plot "Rice - 130 kcal" "" none "2024-01-01"
            ⟨[("2023-12-31", 400)], 2000⟩).map (fun r => r.1.message) =
          .ok (successMessage "Rice" ((130 : ℤ) : ℚ))) :=
  ⟨by decide, by norm_num, by decide,
    (log_success_accumulates "Rice - 130 kcal" "" "2024-01-01" none
      ⟨[("2023-12-31", 400)], 2000⟩ ((130 : ℤ) : ℚ) "Rice"
      (by decide) (by norm_num) (by decide)).1.2.1,
    fun hd => (log_success_accumulates "Rice - 130 kcal" "" "2024-01-01" none
      ⟨[("2023-12-31", 400)], 2000⟩ ((130 : ℤ) : ℚ) "Rice"
      (by decide) (by norm_num) (by decide)).1.2.2.1 "2023-12-31" hd,
    fun hne => (log_success_accumulates "Rice - 130 kcal" "" "2024-01-01" none
      ⟨[("2023-12-31", 400)], 2000⟩ ((130 : ℤ) : ℚ) "Rice"
      (by decide) (by norm_num) (by decide)).1.2.2.2.2 hne⟩

/-- Claim C9: `calculate_and_track_bmi` is unit-invariant — an imperial
measurement (in/lbs) and the same physical measurement pre-converted to
metric (height × 2.54 cm, weight × 0.453592 kg) give the same BMI, hence
agree within the 0.01 rounding tolerance. -/
theorem bmi_unit_invariance (h w : ℚ) (ds : String) (hist : List (String × ℚ))
    (hh : 0 < h) (hw : 0 < w) (d : Date) (hd : parseDate ds = some d) :
    (calculate_and_track_bmi h w "in/lbs" ds hist).1.bmi =
      (calculate_and_track_bmi (h * 2.54) (w * 0.453592) "cm/kg" ds hist).1.bmi
    ∧ |(calculate_and_track_bmi h w "in/lbs" ds hist).1.bmi -
        (calculate_and_track_bmi (h * 2.54) (w * 0.453592) "cm/kg" ds hist).1.bmi|
      ≤ 0.01 := by
  have h1 : 0 < h * 2.54 := mul_pos hh (by norm_num)
  have h2 : 0 < w * 0.453592 := mul_pos hw (by norm_num)
  rw [bmi_success_step h w "in/lbs" ds hist hh hw d hd,
    bmi_success_step (h * 2.54) (w * 0.453592) "cm/kg" ds hist h1 h2 d hd]
  have hv : computeBmiValue h w "in/lbs" =
      computeBmiValue (h * 2.54) (w * 0.453592) "cm/kg" := by
    unfold computeBmiValue convert_to_metric
    rw [if_pos rfl, if_neg (by decide)]
  refine ⟨hv, ?_⟩
  rw [show (⟨computeBmiValue h w "in/lbs", classifyBmi (computeBmiValue h w "in/lbs"),
      "Your BMI is " ++ toString (computeBmiValue h w "in/lbs") ++ ". Category: "
        ++ classifyBmi (computeBmiValue h w "in/lbs")⟩ : BmiOutput).bmi =
    computeBmiValue h w "in/lbs" from rfl, hv]
  simp
  norm_num

theorem bmi_unit_invariance_witness :
    (0 : ℚ) < 67 ∧ (0 : ℚ) < 154 ∧ parseDate "2024-01-15" = some ⟨2024, 1, 15⟩
    ∧ (calculate_and_track_bmi 67 154 "in/lbs" "2024-01-15" []).1.bmi =
        (calculate_and_track_bmi (67 * 2.54) (154 * 0.453592) "cm/kg"
          "2024-01-15" []).1.bmi :=
  ⟨by norm_num, by norm_num, by decide,
    (bmi_unit_invariance 67 154 "2024-01-15" [] (by norm_num) (by norm_num)
      ⟨2024, 1, 15⟩ (by decide)).1⟩

/-- All valid same-date calls keep the per-date count of the target date
at most 1 (the dict invariant). -/
theorem countKey_runBmi_le (D : String) (cs : List (ℚ × ℚ × String × String)) :
    ∀ hist : List (String × ℚ),
      (∀ x ∈ cs, 0 < x.1 ∧ 0 < x.2.1
        ∧ ∃ d, parseDate x.2.2.2 = some d ∧ formatDate d = D) →
      countKey hist D ≤ 1 → countKey (runBmi hist cs) D ≤ 1 := by
  induction cs with
  | nil =>
    intro hist _ hle
    simpa [runBmi] using hle
  | cons c cs ih =>
    intro hist hv hle
    obtain ⟨hc1, hc2, d, hd, hD⟩ := hv c (List.mem_cons_self _ _)
    have step : runBmi hist (c :: cs) =
        runBmi (calculate_and_track_bmi c.1 c.2.1 c.2.2.1 c.2.2.2 hist).2 cs := rfl
    rw [step, bmi_success_step _ _ _ _ _ hc1 hc2 d hd, hD]
    exact ih _ (fun x hx => hv x (List.mem_cons_of_mem _ hx))
      (le_of_eq (countKey_insert _ _ _ hle))

/-- Claim C8: after any nonempty sequence of successful BMI calculations
whose dates all normalize to the same date string `D`, the history holds
exactly one entry for `D`, and its value is the BMI of the last call
(last-write-wins). -/
theorem bmi_history_last_write_wins (hist : List (String × ℚ)) (D : String)
    (cs : List (ℚ × ℚ × String × String)) (c : ℚ × ℚ × String × String)
    (hvalid : ∀ x ∈ cs ++ [c], 0 < x.1 ∧ 0 < x.2.1
      ∧ ∃ d, parseDate x.2.2.2 = some d ∧ formatDate d = D)
    (hstart : countKey hist D ≤ 1) :
    countKey (runBmi hist (cs ++ [c])) D = 1
    ∧ dictLookup (runBmi hist (cs ++ [c])) D =
        some (computeBmiValue c.1 c.2.1 c.2.2.1) := by
  obtain ⟨hc1, hc2, d, hd, hD⟩ := hvalid c (by simp)
  have hcs : ∀ x ∈ cs, 0 < x.1 ∧ 0 < x.2.1
      ∧ ∃ d, parseDate x.2.2.2 = some d ∧ formatDate d = D :=
    fun x hx => hvalid x (by simp [hx])
  have hle := countKey_runBmi_le D cs hist hcs hstart
  have hrun : runBmi hist (cs ++ [c]) =
      dictInsert (runBmi hist cs) D (computeBmiValue c.1 c.2.1 c.2.2.1) := by
    unfold runBmi
    rw [List.foldl_append]
    simp only [List.foldl_cons, List.foldl_nil]
    rw [bmi_success_step _ _ _ _ _ hc1 hc2 d hd, hD]
  rw [hrun]
  exact ⟨countKey_insert _ _ _ hle, dictLookup_insert_self _ _ _⟩

theorem bmi_history_last_write_wins_witness :
    (∀ x ∈ ([(170, 70, "cm/kg", "2024-01-15")] ++
        [((170 : ℚ), (90 : ℚ), "cm/kg", "2024-01-15")]), 0 < x.1 ∧ 0 < x.2.1
      ∧ ∃ d, parseDate x.2.2.2 = some d ∧ formatDate d = "2024-01-15")
    ∧ countKey ([] : List (String × ℚ)) "2024-01-15" ≤ 1
    ∧ countKey (runBmi [] ([(170, 70, "cm/kg", "2024-01-15")] ++
        [((170 : ℚ), (90 : ℚ), "cm/kg", "2024-01-15")])) "2024-01-15" = 1
    ∧ dictLookup (runBmi [] ([(170, 70, "cm/kg", "2024-01-15")] ++
        [((170 : ℚ), (90 : ℚ), "cm/kg", "2024-01-15")])) "2024-01-15" =
      some (computeBmiValue 170 90 "cm/kg") := by
  have hv : ∀ x ∈ ([(170, 70, "cm/kg", "2024-01-15")] ++
      [((170 : ℚ), (90 : ℚ), "cm/kg", "2024-01-15")]), 0 < x.1 ∧ 0 < x.2.1
      ∧ ∃ d, parseDate x.2.2.2 = some d ∧ formatDate d = "2024-01-15" := by
    intro x hx
    simp only [List.mem_append, List.mem_singleton] at hx
    rcases hx with hx | hx <;> subst hx <;>
      exact ⟨by norm_num, by norm_num, ⟨2024, 1, 15⟩, by decide, by decide⟩
  refine ⟨hv, by simp [countKey], ?_⟩
  exact bmi_history_last_write_wins [] "2024-01-15"
    [(170, 70, "cm/kg", "2024-01-15")] ((170 : ℚ), (90 : ℚ), "cm/kg", "2024-01-15")
    hv (by simp [countKey])

end HealthCalc
